import Mathlib

/-!
Verification of the descriptor-provisioner logic of the tabconf2023 bdk
workshop program (src/main.rs), as a shallow embedding.

The program's own logic is sequential glue code: open `config.txt`; if it
opens, split its contents on `|` into exactly two descriptor strings and
parse each one (every failure is an `unwrap` panic); otherwise draw a
32-byte random seed, derive a master extended private key, build two
single-key Taproot descriptors at the hard-coded paths m/86'/1'/0'/0/0 and
m/86'/1'/0'/0/1, and write their secret serializations joined by `|` to the
file.  The external bdk / rust-bitcoin operations (key derivation,
descriptor construction, descriptor parse / serialization) are modelled as
parameters of a `CreateEnv` record: the embedding fixes only what the
repository's own code fixes.

Strings are modelled as `List Char` (the prompt, which Rust handles
byte-wise, as `List Nat`).  Every `unwrap` in the source is modelled as a
`RunResult.crashed` outcome carrying the cause.
-/

namespace TabconfBdk

/-- Source constant `CONFIG_FILE` (src/main.rs line 20). -/
def CONFIG_FILE : String := "config.txt"

/-- Source constant `CHAIN_DATA_FILE` (src/main.rs line 21). -/
def CHAIN_DATA_FILE : String := "chain.dat"

/-- Source constant `STOP_GAP` (src/main.rs line 24). -/
def STOP_GAP : Nat := 50

/-- Source constant `PARALLEL_REQUESTS` (src/main.rs line 25). -/
def PARALLEL_REQUESTS : Nat := 5

/-- The configuration-file field delimiter, the pattern of
`config.split("|")` (src/main.rs line 41). -/
def barChar : Char := '|'

/-- Rust `str::split` with a single-character pattern: the pieces between
occurrences of `sep`, empty pieces included; always at least one piece. -/
def splitChar (sep : Char) : List Char → List (List Char)
  | [] => [[]]
  | c :: cs =>
    if c = sep then [] :: splitChar sep cs
    else
      match splitChar sep cs with
      | [] => [[c]]
      | p :: ps => (c :: p) :: ps

/-- One component of a BIP-32 derivation path (`bip32::ChildNumber`). -/
inductive ChildNumber
  | normal (i : Nat)
  | hardened (i : Nat)
  deriving DecidableEq

/-- The path parsed from the hard-coded string `"m/86'/1'/0'/0/0"`
(src/main.rs line 59): purpose 86 hardened, coin type 1 hardened (test
network), account 0 hardened, change branch 0, address index 0. -/
def bip86_external : List ChildNumber :=
  [.hardened 86, .hardened 1, .hardened 0, .normal 0, .normal 0]

/-- The path parsed from the hard-coded string `"m/86'/1'/0'/0/1"`
(src/main.rs line 60): same as `bip86_external` except the final address
index, which is 1. -/
def bip86_internal : List ChildNumber :=
  [.hardened 86, .hardened 1, .hardened 0, .normal 0, .normal 1]

/-- The `unwrap` sites of the provisioner, each of which aborts the whole
run by a panic when its operation fails. -/
inductive CrashCause
  | arrayConvert
  | parseExternal
  | parseInternal
  | keyDerivation
  | descriptorBuild
  | fileCreate
  | fileWrite
  deriving DecidableEq

/-- Outcome of one provisioner run over descriptor type `D`: either the
(external, internal) pair, or an abort by unwrap panic. -/
inductive RunResult (D : Type)
  | ok (ext int : D)
  | crashed (cause : CrashCause)
  deriving DecidableEq

/-- Whether a run aborted by a panic. -/
def RunResult.isCrashed {D : Type} : RunResult D → Bool
  | .crashed _ => true
  | _ => false

/-- The load branch applied to the already-split field list
(src/main.rs lines 40-52): `try_into::<[_; 2]>().unwrap()` panics unless
there are exactly two fields, then each field is parsed with
`into_wallet_descriptor(..).unwrap()`, external first. -/
def parseConfigParts {D : Type} (pd : List Char → Option D) :
    List (List Char) → RunResult D
  | [e, i] =>
    match pd e with
    | none => .crashed .parseExternal
    | some ed =>
      match pd i with
      | none => .crashed .parseInternal
      | some id => .ok ed id
  | _ => .crashed .arrayConvert

/-- The load branch of `main` (src/main.rs lines 37-53): split the file
contents on `|` and parse the two fields.  `pd` is the external library's
descriptor parse (`into_wallet_descriptor` for the fixed network). -/
def loadBranch {D : Type} (pd : List Char → Option D) (config : List Char) :
    RunResult D :=
  parseConfigParts pd (splitChar barChar config)

/-- The external operations the create branch calls, as parameters.
`rngByte` is the `thread_rng` byte stream filling the seed buffer;
`newMaster` is `ExtendedPrivKey::new_master` for the fixed network;
`buildTr` is the `into_descriptor_key` / `descriptor!(tr(..))` /
`into_wallet_descriptor` chain applied to an xprv and one derivation path;
`serialize` is `to_string_with_secret`; the two flags say whether
`File::create` and `File::write` succeed. -/
structure CreateEnv (X D : Type) where
  rngByte : Nat → Nat
  newMaster : List Nat → Option X
  buildTr : X → List ChildNumber → Option D
  serialize : D → List Char
  fileCreateOk : Bool
  fileWriteOk : Bool

/-- The seed buffer `[0u8; 32]` after `rand::thread_rng().fill_bytes`
(src/main.rs lines 56-57): exactly 32 bytes drawn from the rng stream. -/
def seedBytes (rng : Nat → Nat) : List Nat :=
  (List.range 32).map (fun i => rng i % 256)

/-- The file record written by the create branch (src/main.rs lines 74-82):
`format!("{}|{}", ext_with_secret, int_with_secret)`. -/
def configString {D : Type} (ser : D → List Char) (ext int : D) : List Char :=
  ser ext ++ barChar :: ser int

/-- The create branch of `main` (src/main.rs lines 54-85): draw the seed,
derive the master key (panic on failure), build the external and internal
Taproot descriptors from that one master key at the two fixed paths (panic
on failure), create the file (panic on failure, nothing written), write the
joined serializations (panic on failure, file already truncated), and
return the pair.  Second component: the `config.txt` contents afterwards
(`none` = no file). -/
def createBranch {X D : Type} (env : CreateEnv X D) :
    RunResult D × Option (List Char) :=
  match env.newMaster (seedBytes env.rngByte) with
  | none => (.crashed .keyDerivation, none)
  | some xprv =>
    match env.buildTr xprv bip86_external, env.buildTr xprv bip86_internal with
    | some extD, some intD =>
      if env.fileCreateOk then
        if env.fileWriteOk then
          (.ok extD intD, some (configString env.serialize extD intD))
        else (.crashed .fileWrite, some [])
      else (.crashed .fileCreate, none)
    | _, _ => (.crashed .descriptorBuild, none)

/-- `load_or_create_descriptors` (src/main.rs lines 35-86): if `config.txt`
opens (modelled: exists, contents `some config`), take the load branch and
leave the file alone; otherwise take the create branch.  Returns the run
outcome and the file contents afterwards. -/
def provision {X D : Type} (env : CreateEnv X D) (pd : List Char → Option D)
    (fs : Option (List Char)) : RunResult D × Option (List Char) :=
  match fs with
  | some config => (loadBranch pd config, some config)
  | none => createBranch env

/-- ASCII / Latin-1 range whitespace bytes recognised by Rust `str::trim`
(the model is scoped to single-byte characters): tab, LF, VT, FF, CR,
space. -/
def isWsByte (b : Nat) : Bool :=
  b == 9 || b == 10 || b == 11 || b == 12 || b == 13 || b == 32

/-- Rust `str::trim` on the answer line: drop leading and trailing
whitespace. -/
def trimBytes (l : List Nat) : List Nat :=
  ((l.dropWhile isWsByte).reverse.dropWhile isWsByte).reverse

/-- Rust `u8::to_ascii_lowercase` (`String::to_ascii_lowercase` is
byte-wise): add 32 to an ASCII uppercase byte, leave everything else. -/
def byteToLower (b : Nat) : Nat :=
  if 65 ≤ b ∧ b ≤ 90 then b + 32 else b

/-- The `prompt` function's decision (src/main.rs lines 194-200):
`answer.trim().to_ascii_lowercase() == "y"`; byte 121 is lowercase y. -/
def promptIsYes (line : List Nat) : Bool :=
  (trimBytes line).map byteToLower == [121]

/-- The external-library calls made by the scan section of `main`, in
order, as an event trace. -/
inductive ScanEvent
  | scanTxGraph (stopGap parallelRequests : Nat)
  | updateLocalChain
  | applyUpdate
  | commitWallet
  deriving DecidableEq

/-- The scan section (src/main.rs lines 130-189): when the prompt decision
is yes, exactly one `update_tx_graph` request with `STOP_GAP` and
`PARALLEL_REQUESTS`, then `update_local_chain`, `apply_update`, `commit`;
otherwise nothing. -/
def scanPhase (doScan : Bool) : List ScanEvent :=
  if doScan then
    [.scanTxGraph STOP_GAP PARALLEL_REQUESTS, .updateLocalChain,
      .applyUpdate, .commitWallet]
  else []

/-- The scan section driven by the prompt answer line (src/main.rs
line 130: `if prompt("Scan wallet")`). -/
def runScanSection (line : List Nat) : List ScanEvent :=
  scanPhase (promptIsYes line)

/-- Modelled from the spec: the external library's secret serialization of
a single-key Taproot descriptor, which is absent from src/ (it lives in
bdk / miniscript).  The spec says each persisted descriptor string begins
with the Taproot prefix and contains the private key's origin fingerprint,
so the model records a fingerprint and the remaining key material. -/
structure TrDescriptor where
  fingerprint : List Char
  keyBody : List Char
  deriving DecidableEq

/-- The Taproot descriptor prefix characters of `tr(`. -/
def trOpen : List Char := ['t', 'r', '(']

/-- Modelled from the spec: `to_string_with_secret` of a single-key Taproot
descriptor — the `tr(` prefix, the bracketed key-origin fingerprint, the
extended private key material, and the closing parenthesis. -/
def trStringWithSecret (d : TrDescriptor) : List Char :=
  trOpen ++ '[' :: (d.fingerprint ++ ']' :: (d.keyBody ++ [')']))

/-- A concrete descriptor parse for witnesses: accepts runs of `a` and
returns their length. -/
def toyParse : List Char → Option Nat :=
  fun s => if s.all (fun c => c == 'a') then some s.length else none

/-- A concrete, fully successful environment for witnesses: descriptors are
numbers, serialized as runs of `a`. -/
def toyEnv : CreateEnv Unit Nat where
  rngByte := fun _ => 7
  newMaster := fun _ => some ()
  buildTr := fun _ p => some p.length
  serialize := fun n => List.replicate n 'a'
  fileCreateOk := true
  fileWriteOk := true

/-- `toyEnv` with a failing master-key derivation. -/
def failKeyEnv : CreateEnv Unit Nat :=
  { toyEnv with newMaster := fun _ => none }

/-- `toyEnv` with a failing `File::create`. -/
def failCreateEnv : CreateEnv Unit Nat :=
  { toyEnv with fileCreateOk := false }

/-- `toyEnv` with a failing `File::write`. -/
def failWriteEnv : CreateEnv Unit Nat :=
  { toyEnv with fileWriteOk := false }

/-- A concrete environment over `TrDescriptor` for witnesses. -/
def toyTrEnv : CreateEnv Unit TrDescriptor where
  rngByte := fun _ => 0
  newMaster := fun _ => some ()
  buildTr := fun _ p =>
    some ⟨['0', 'f'], if p = bip86_internal then ['K', '1'] else ['K', '0']⟩
  serialize := trStringWithSecret
  fileCreateOk := true
  fileWriteOk := true

/-! ## Helper lemmas -/

theorem splitChar_eq_single {sep : Char} :
    ∀ {l : List Char}, sep ∉ l → splitChar sep l = [l]
  | [], _ => rfl
  | c :: cs, h => by
    have hc : ¬ c = sep := fun e => h (e ▸ List.mem_cons_self c cs)
    have ih := splitChar_eq_single (l := cs) (fun m => h (List.mem_cons_of_mem c m))
    simp [splitChar, hc, ih]

theorem splitChar_append {sep : Char} :
    ∀ {a : List Char} (b : List Char), sep ∉ a →
      splitChar sep (a ++ sep :: b) = a :: splitChar sep b
  | [], b, _ => by simp [splitChar]
  | c :: a, b, h => by
    have hc : ¬ c = sep := fun e => h (e ▸ List.mem_cons_self c a)
    have ih := splitChar_append (a := a) b (fun m => h (List.mem_cons_of_mem c m))
    simp [splitChar, hc, ih]

theorem splitChar_pair {sep : Char} {a b : List Char}
    (ha : sep ∉ a) (hb : sep ∉ b) :
    splitChar sep (a ++ sep :: b) = [a, b] := by
  rw [splitChar_append b ha, splitChar_eq_single hb]

theorem createBranch_ok {X D : Type} (env : CreateEnv X D) (x : X) (eD iD : D)
    (hx : env.newMaster (seedBytes env.rngByte) = some x)
    (he : env.buildTr x bip86_external = some eD)
    (hi : env.buildTr x bip86_internal = some iD)
    (hc : env.fileCreateOk = true) (hw : env.fileWriteOk = true) :
    createBranch env = (.ok eD iD, some (configString env.serialize eD iD)) := by
  simp [createBranch, hx, he, hi, hc, hw]

theorem loadBranch_configString {D : Type} (pd : List Char → Option D)
    (ser : D → List Char) (eD iD : D)
    (hpe : pd (ser eD) = some eD) (hpi : pd (ser iD) = some iD)
    (hbe : barChar ∉ ser eD) (hbi : barChar ∉ ser iD) :
    loadBranch pd (configString ser eD iD) = .ok eD iD := by
  unfold loadBranch configString
  rw [splitChar_pair hbe hbi]
  simp [parseConfigParts, hpe, hpi]

/-! ## Claims -/

/-- C1 counterexample: on an existing file containing `abc` (no delimiter,
one field after the split) the load branch aborts by the
`try_into().unwrap()` panic — the outcome is a crash, not a typed
`ConfigFormatError`, refuting "fails with ConfigFormatError … never a
panic". -/
theorem claim1_counterexample :
    (loadBranch (fun _ => (none : Option Nat)) ['a', 'b', 'c']).isCrashed = true ∧
    loadBranch (fun _ => (none : Option Nat)) ['a', 'b', 'c'] =
      .crashed .arrayConvert := by
  constructor <;> rfl

/-- C1 (amended): for every existing configuration file whose contents do
not split on `|` into exactly two parts, the load branch aborts the run by
an unwrap panic on the array conversion (a crash with non-zero exit, not a
typed `ConfigFormatError`), and the file is not written; there is no
silent partial load. -/
theorem claim1_bad_split_crashes {X D : Type} (env : CreateEnv X D)
    (pd : List Char → Option D) (config : List Char)
    (h : (splitChar barChar config).length ≠ 2) :
    provision env pd (some config) = (.crashed .arrayConvert, some config) := by
  have hp : parseConfigParts pd (splitChar barChar config) =
      .crashed .arrayConvert := by
    rcases hl : splitChar barChar config with _ | ⟨a, _ | ⟨b, _ | ⟨c, t⟩⟩⟩
    · rfl
    · rfl
    · rw [hl] at h; exact absurd rfl h
    · rfl
  simp [provision, loadBranch, hp]

/-- C1 witness: the file `abc` makes the run crash on the array conversion
and leaves the file unchanged. -/
theorem claim1_bad_split_crashes_witness :
    provision toyEnv toyParse (some ['a', 'b', 'c']) =
      (.crashed .arrayConvert, some ['a', 'b', 'c']) :=
  claim1_bad_split_crashes toyEnv toyParse ['a', 'b', 'c'] (by decide)

/-- C2 counterexample: the keychain-branch (change) component — index 3 of
the path — of the internal derivation path is 0, not 1: the code does not
distinguish the internal descriptor by the BIP-86 change-branch component,
refuting "branch 0 for external versus branch 1 for internal". -/
theorem claim2_counterexample :
    bip86_internal[3]? = some (.normal 0) ∧
    bip86_internal[3]? ≠ some (.normal 1) := by
  decide

/-- C2 (amended): in every run that takes the create branch, the two child
keys are derived at fixed, hard-coded paths with purpose 86 hardened, test
coin type 1 hardened, account 0 hardened; both paths lie on change branch
0, and the external descriptor is distinguished from the internal one by
the final address-index component — 0 for external versus 1 for
internal — not by the BIP-86 change-branch component. -/
theorem claim2_fixed_paths {X D : Type} (env : CreateEnv X D) (x : X) (eD iD : D)
    (hx : env.newMaster (seedBytes env.rngByte) = some x)
    (he : env.buildTr x bip86_external = some eD)
    (hi : env.buildTr x bip86_internal = some iD)
    (hc : env.fileCreateOk = true) (hw : env.fileWriteOk = true) :
    (createBranch env).1 = .ok eD iD ∧
    bip86_external[0]? = some (.hardened 86) ∧
    bip86_external[1]? = some (.hardened 1) ∧
    bip86_external[2]? = some (.hardened 0) ∧
    bip86_external[3]? = some (.normal 0) ∧
    bip86_internal[3]? = some (.normal 0) ∧
    bip86_external[4]? = some (.normal 0) ∧
    bip86_internal[4]? = some (.normal 1) ∧
    bip86_external.take 4 = bip86_internal.take 4 := by
  refine ⟨?_, by decide, by decide, by decide, by decide, by decide,
    by decide, by decide, by decide⟩
  simp [createBranch, hx, he, hi, hc, hw]

/-- C2 witness: the amended statement at the concrete environment. -/
theorem claim2_fixed_paths_witness :
    (createBranch toyEnv).1 = .ok 5 5 :=
  (claim2_fixed_paths toyEnv () 5 5 (by decide) (by decide) (by decide)
    rfl rfl).1

/-- C3: round-trip — the create branch writes the two secret
serializations joined by `|`, and loading that very file contents back
(under the library facts that parsing inverts serialization on the two
generated descriptors and that serializations contain no `|`) returns the
identical descriptor pair, so re-serialization is byte-identical. -/
theorem claim3_roundtrip {X D : Type} (env : CreateEnv X D)
    (pd : List Char → Option D) (x : X) (eD iD : D)
    (hx : env.newMaster (seedBytes env.rngByte) = some x)
    (he : env.buildTr x bip86_external = some eD)
    (hi : env.buildTr x bip86_internal = some iD)
    (hc : env.fileCreateOk = true) (hw : env.fileWriteOk = true)
    (hpe : pd (env.serialize eD) = some eD)
    (hpi : pd (env.serialize iD) = some iD)
    (hbe : barChar ∉ env.serialize eD) (hbi : barChar ∉ env.serialize iD) :
    createBranch env = (.ok eD iD, some (configString env.serialize eD iD)) ∧
    loadBranch pd (configString env.serialize eD iD) = .ok eD iD :=
  ⟨createBranch_ok env x eD iD hx he hi hc hw,
   loadBranch_configString pd env.serialize eD iD hpe hpi hbe hbi⟩

/-- C3 witness: the round trip at the concrete environment. -/
theorem claim3_roundtrip_witness :
    createBranch toyEnv = (.ok 5 5, some (configString toyEnv.serialize 5 5)) ∧
    loadBranch toyParse (configString toyEnv.serialize 5 5) = .ok 5 5 :=
  claim3_roundtrip toyEnv toyParse () 5 5 (by decide) (by decide) (by decide)
    rfl rfl (by decide) (by decide) (by decide) (by decide)

/-- C4: idempotence — a first run with no file creates the file and
returns the pair; a second run against that existing valid file takes the
load branch (the branches are mutually exclusive on file existence), does
not modify the file, and returns the same (external, internal) pair. -/
theorem claim4_idempotent {X D : Type} (env : CreateEnv X D)
    (pd : List Char → Option D) (x : X) (eD iD : D)
    (hx : env.newMaster (seedBytes env.rngByte) = some x)
    (he : env.buildTr x bip86_external = some eD)
    (hi : env.buildTr x bip86_internal = some iD)
    (hc : env.fileCreateOk = true) (hw : env.fileWriteOk = true)
    (hpe : pd (env.serialize eD) = some eD)
    (hpi : pd (env.serialize iD) = some iD)
    (hbe : barChar ∉ env.serialize eD) (hbi : barChar ∉ env.serialize iD) :
    provision env pd none = (.ok eD iD, some (configString env.serialize eD iD)) ∧
    provision env pd (some (configString env.serialize eD iD)) =
      (.ok eD iD, some (configString env.serialize eD iD)) := by
  constructor
  · simpa [provision] using createBranch_ok env x eD iD hx he hi hc hw
  · simpa [provision] using
      loadBranch_configString pd env.serialize eD iD hpe hpi hbe hbi

/-- C4 witness: both runs at the concrete environment. -/
theorem claim4_idempotent_witness :
    provision toyEnv toyParse none =
      (.ok 5 5, some (configString toyEnv.serialize 5 5)) ∧
    provision toyEnv toyParse (some (configString toyEnv.serialize 5 5)) =
      (.ok 5 5, some (configString toyEnv.serialize 5 5)) :=
  claim4_idempotent toyEnv toyParse () 5 5 (by decide) (by decide) (by decide)
    rfl rfl (by decide) (by decide) (by decide) (by decide)

/-- C5 counterexample: when master-key derivation fails, the create branch
aborts by the `new_master(..).unwrap()` panic — a crash, not a typed
`KeyDerivationError`, refuting "never a crash". -/
theorem claim5_counterexample :
    (createBranch failKeyEnv).1.isCrashed = true ∧
    createBranch failKeyEnv = (.crashed .keyDerivation, none) := by
  constructor <;> rfl

/-- C5 (amended): in the create branch, a seed rejected by master-key
derivation, a configuration file that cannot be created, and a file that
cannot be written are each a defined failure path that aborts the run
immediately — by an unwrap panic with non-zero exit, not a typed
`KeyDerivationError` / `PersistenceError` — and is never recovered or
retried: the run ends at the first such failure. -/
theorem claim5_crash_paths {X D : Type} (env : CreateEnv X D) :
    (env.newMaster (seedBytes env.rngByte) = none →
      createBranch env = (.crashed .keyDerivation, none)) ∧
    (∀ x eD iD, env.newMaster (seedBytes env.rngByte) = some x →
      env.buildTr x bip86_external = some eD →
      env.buildTr x bip86_internal = some iD →
      env.fileCreateOk = false →
      createBranch env = (.crashed .fileCreate, none)) ∧
    (∀ x eD iD, env.newMaster (seedBytes env.rngByte) = some x →
      env.buildTr x bip86_external = some eD →
      env.buildTr x bip86_internal = some iD →
      env.fileCreateOk = true → env.fileWriteOk = false →
      createBranch env = (.crashed .fileWrite, some [])) := by
  refine ⟨fun h => by simp [createBranch, h],
    fun x eD iD hx he hi hc => by simp [createBranch, hx, he, hi, hc],
    fun x eD iD hx he hi hc hw => by simp [createBranch, hx, he, hi, hc, hw]⟩

/-- C5 witness: the file-create and file-write failure paths at concrete
environments. -/
theorem claim5_crash_paths_witness :
    createBranch failCreateEnv = (.crashed .fileCreate, none) ∧
    createBranch failWriteEnv = (.crashed .fileWrite, some []) :=
  ⟨(claim5_crash_paths failCreateEnv).2.1 () 5 5 (by decide) (by decide)
      (by decide) rfl,
   (claim5_crash_paths failWriteEnv).2.2 () 5 5 (by decide) (by decide)
      (by decide) rfl rfl⟩

/-- C6: in every run that takes the create branch, exactly 32 bytes are
drawn from the random source into the seed buffer, and the file written
holds exactly the serializations of the two derived descriptors joined by
`|` — the raw seed itself is never part of what is persisted. -/
theorem claim6_seed_32_not_persisted {X D : Type} (env : CreateEnv X D)
    (x : X) (eD iD : D)
    (hx : env.newMaster (seedBytes env.rngByte) = some x)
    (he : env.buildTr x bip86_external = some eD)
    (hi : env.buildTr x bip86_internal = some iD)
    (hc : env.fileCreateOk = true) (hw : env.fileWriteOk = true) :
    (seedBytes env.rngByte).length = 32 ∧
    (∀ b ∈ seedBytes env.rngByte, b < 256) ∧
    createBranch env = (.ok eD iD, some (configString env.serialize eD iD)) := by
  refine ⟨by simp [seedBytes], ?_, createBranch_ok env x eD iD hx he hi hc hw⟩
  intro b hb
  simp [seedBytes] at hb
  obtain ⟨i, _, rfl⟩ := hb
  exact Nat.mod_lt _ (by norm_num)

/-- C6 witness: the seed and file facts at the concrete environment. -/
theorem claim6_seed_32_not_persisted_witness :
    (seedBytes toyEnv.rngByte).length = 32 ∧
    (∀ b ∈ seedBytes toyEnv.rngByte, b < 256) ∧
    createBranch toyEnv = (.ok 5 5, some (configString toyEnv.serialize 5 5)) :=
  claim6_seed_32_not_persisted toyEnv () 5 5 (by decide) (by decide)
    (by decide) rfl rfl

/-- C7: the prompt decision is yes exactly when the trimmed answer is a
case-insensitive `y` — byte 121 is `y`, byte 89 is `Y`; every other answer
is treated as no. -/
theorem claim7_prompt_iff (line : List Nat) :
    promptIsYes line = true ↔
      (trimBytes line = [121] ∨ trimBytes line = [89]) := by
  unfold promptIsYes
  rw [beq_iff_eq]
  generalize trimBytes line = t
  rcases t with _ | ⟨c, _ | ⟨d, t⟩⟩
  · simp
  · simp only [List.map_cons, List.map_nil, List.cons.injEq, and_true]
    unfold byteToLower
    split <;> omega
  · simp

/-- C7 witness: the answer `y` is accepted. -/
theorem claim7_prompt_iff_witness : promptIsYes [121] = true :=
  (claim7_prompt_iff [121]).mpr (Or.inl (by decide))

/-- C8: whenever the prompt decision is yes, the scan section issues
exactly one scan-keychains request, parameterized by stop gap
`STOP_GAP = 50` and parallelism `PARALLEL_REQUESTS = 5`, and then applies
the returned update to the wallet and commits it. -/
theorem claim8_scan_once (line : List Nat) (h : promptIsYes line = true) :
    runScanSection line =
      [.scanTxGraph STOP_GAP PARALLEL_REQUESTS, .updateLocalChain,
        .applyUpdate, .commitWallet] ∧
    (runScanSection line).count (.scanTxGraph STOP_GAP PARALLEL_REQUESTS) = 1 ∧
    STOP_GAP = 50 ∧ PARALLEL_REQUESTS = 5 := by
  have hrun : runScanSection line =
      [.scanTxGraph STOP_GAP PARALLEL_REQUESTS, .updateLocalChain,
        .applyUpdate, .commitWallet] := by
    simp [runScanSection, h, scanPhase]
  exact ⟨hrun, by rw [hrun]; decide, rfl, rfl⟩

/-- C8 witness: the scan trace after answering `y`. -/
theorem claim8_scan_once_witness :
    runScanSection [121] =
      [.scanTxGraph STOP_GAP PARALLEL_REQUESTS, .updateLocalChain,
        .applyUpdate, .commitWallet] ∧
    (runScanSection [121]).count (.scanTxGraph STOP_GAP PARALLEL_REQUESTS) = 1 ∧
    STOP_GAP = 50 ∧ PARALLEL_REQUESTS = 5 :=
  claim8_scan_once [121] (by decide)

theorem trOpen_prefix_trString (d : TrDescriptor) :
    trOpen <+: trStringWithSecret d :=
  ⟨'[' :: (d.fingerprint ++ ']' :: (d.keyBody ++ [')'])), rfl⟩

theorem fingerprint_infix_trString (d : TrDescriptor) :
    d.fingerprint <:+: trStringWithSecret d :=
  ⟨trOpen ++ ['['], ']' :: (d.keyBody ++ [')']), by
    simp [trStringWithSecret, trOpen]⟩

theorem barChar_not_mem_trString (d : TrDescriptor)
    (hf : barChar ∉ d.fingerprint) (hk : barChar ∉ d.keyBody) :
    barChar ∉ trStringWithSecret d := by
  intro hmem
  simp only [trStringWithSecret, trOpen, List.mem_cons, List.mem_append,
    List.cons_append, List.nil_append, List.mem_singleton] at hmem
  rcases hmem with h | h | h | h | h | h | h | h
  · exact absurd h (by decide)
  · exact absurd h (by decide)
  · exact absurd h (by decide)
  · exact absurd h (by decide)
  · exact hf h
  · exact absurd h (by decide)
  · exact hk h
  · exact absurd h (by decide)

/-- C9: a first run with no configuration file writes exactly two
descriptor strings joined by `|` (splitting the written contents on `|`
recovers exactly the two serializations), each beginning with the Taproot
prefix `tr(` and containing the key's origin fingerprint, to the file
named `config.txt`. -/
theorem claim9_first_run {X : Type} (env : CreateEnv X TrDescriptor)
    (pd : List Char → Option TrDescriptor) (x : X) (eD iD : TrDescriptor)
    (hser : env.serialize = trStringWithSecret)
    (hx : env.newMaster (seedBytes env.rngByte) = some x)
    (he : env.buildTr x bip86_external = some eD)
    (hi : env.buildTr x bip86_internal = some iD)
    (hc : env.fileCreateOk = true) (hw : env.fileWriteOk = true)
    (hfe : barChar ∉ eD.fingerprint) (hke : barChar ∉ eD.keyBody)
    (hfi : barChar ∉ iD.fingerprint) (hki : barChar ∉ iD.keyBody) :
    provision env pd none =
      (.ok eD iD,
        some (trStringWithSecret eD ++ barChar :: trStringWithSecret iD)) ∧
    splitChar barChar (trStringWithSecret eD ++ barChar :: trStringWithSecret iD) =
      [trStringWithSecret eD, trStringWithSecret iD] ∧
    trOpen <+: trStringWithSecret eD ∧ trOpen <+: trStringWithSecret iD ∧
    eD.fingerprint <:+: trStringWithSecret eD ∧
    iD.fingerprint <:+: trStringWithSecret iD ∧
    CONFIG_FILE = "config.txt" := by
  have h1 := createBranch_ok env x eD iD hx he hi hc hw
  rw [hser] at h1
  refine ⟨?_,
    splitChar_pair (barChar_not_mem_trString eD hfe hke)
      (barChar_not_mem_trString iD hfi hki),
    trOpen_prefix_trString eD, trOpen_prefix_trString iD,
    fingerprint_infix_trString eD, fingerprint_infix_trString iD, rfl⟩
  simpa [provision, configString] using h1

/-- C9 witness: the first run at the concrete environment. -/
theorem claim9_first_run_witness :
    provision toyTrEnv (fun _ => none) none =
      (.ok ⟨['0', 'f'], ['K', '0']⟩ ⟨['0', 'f'], ['K', '1']⟩,
        some (trStringWithSecret ⟨['0', 'f'], ['K', '0']⟩ ++ barChar ::
          trStringWithSecret ⟨['0', 'f'], ['K', '1']⟩)) :=
  (claim9_first_run toyTrEnv (fun _ => none) ()
    ⟨['0', 'f'], ['K', '0']⟩ ⟨['0', 'f'], ['K', '1']⟩ rfl (by decide)
    (by decide) (by decide) rfl rfl (by decide) (by decide) (by decide)
    (by decide)).1

/-- C10: the create branch derives one master key from the single seed and
builds both descriptors from that same key; the two derivation paths are
identical except for the final non-hardened index — 0 for external, 1 for
internal — so both descriptors carry the same master-key origin. -/
theorem claim10_same_master {X D : Type} (env : CreateEnv X D) (x : X)
    (eD iD : D)
    (hx : env.newMaster (seedBytes env.rngByte) = some x)
    (he : env.buildTr x bip86_external = some eD)
    (hi : env.buildTr x bip86_internal = some iD)
    (hc : env.fileCreateOk = true) (hw : env.fileWriteOk = true) :
    (createBranch env).1 = .ok eD iD ∧
    bip86_external.dropLast = bip86_internal.dropLast ∧
    bip86_external.getLast? = some (.normal 0) ∧
    bip86_internal.getLast? = some (.normal 1) := by
  refine ⟨?_, by decide, by decide, by decide⟩
  simp [createBranch, hx, he, hi, hc, hw]

/-- C10 witness: the statement at the concrete environment. -/
theorem claim10_same_master_witness :
    (createBranch toyEnv).1 = .ok 5 5 ∧
    bip86_external.dropLast = bip86_internal.dropLast ∧
    bip86_external.getLast? = some (.normal 0) ∧
    bip86_internal.getLast? = some (.normal 1) :=
  claim10_same_master toyEnv () 5 5 (by decide) (by decide) (by decide)
    rfl rfl

end TabconfBdk
